import Mathlib

/- Shallow embedding of the embedded-fans repository (crates `embedded-fans`
   and `embedded-fans-async`).

   Modelling conventions:
   - `u16` / `u8` / `u32` values are `Nat`s; wherever the source casts to a
     narrower type or release-mode machine arithmetic can wrap, the reduction
     is made explicit with `% 2^16` (= 65536) or `% 2^32` (= 4294967296).
   - A `&mut self` method on a device with state type `S` becomes an explicit
     state-passing function `S → ... → Result × S`; `Result<A, E>` becomes
     `Except E A`.
   - A Rust trait with provided (default) methods becomes: a structure whose
     fields are all of the trait's methods (so an implementation may override
     any of them, and the `&mut T` blanket impl can forward each one), plus
     one free function per default method body, parameterised by the required
     methods that body calls through `self`.
   - `debug_assert!` compiles to nothing in release builds, so the default
     bodies below carry no assertion; the assertion's condition is embedded
     separately (`percentAssertCond`) so that properties about it can be
     stated. -/

namespace EmbeddedFans

/-- Fan error kind, from `enum ErrorKind` in embedded-fans/src/lib.rs
(variants `Peripheral`, `InvalidSpeed`, `Other`; `non_exhaustive` is a
source-compatibility marker with no semantic content here). -/
inductive ErrorKind : Type where
  | Peripheral : ErrorKind
  | InvalidSpeed : ErrorKind
  | Other : ErrorKind
deriving DecidableEq

/-- From `impl Error for ErrorKind`: `fn kind(&self) -> ErrorKind { *self }`. -/
def ErrorKind.kind (e : ErrorKind) : ErrorKind := e

/-- The uninhabited type `core::convert::Infallible` (no constructors). -/
inductive Infallible : Type where

/-- From `impl Error for Infallible`:
`fn kind(&self) -> ErrorKind { match *self {} }` — an empty match, total
because `Infallible` has no values. -/
def Infallible.kind (e : Infallible) : ErrorKind := nomatch e

/-- From `impl<T: ErrorType + ?Sized> ErrorType for &mut T \x7b type Error =
T::Error; \x7d`: the associated error type of the borrowed handle `&mut T` is
exactly the associated error type `E` of the underlying `T`. -/
def refMutErrorType (E : Type) : Type := E

/-- Default body of the blocking `Fan::set_speed_percent`
(embedded-fans/src/lib.rs lines 156-162):
`self.set_speed_rpm(((u32::from(self.max_rpm()) * u32::from(percent)) / 100) as u16)`.
Both operands are widened to `u32`, so the product is reduced mod `2^32`,
the quotient is taken in `u32`, and the `as u16` cast reduces mod `2^16`. -/
def defaultSetSpeedPercent {S E : Type} (max_rpm : S → Nat)
    (set_speed_rpm : S → Nat → Except E Nat × S) (s : S) (percent : Nat) :
    Except E Nat × S :=
  set_speed_rpm s ((max_rpm s * percent) % 4294967296 / 100 % 65536)

/-- Default body of the blocking `Fan::set_speed_max`
(embedded-fans/src/lib.rs lines 164-169):
`self.set_speed_rpm(self.max_rpm())?; Ok(())` — one call to `set_speed_rpm`
with argument `max_rpm()`; `?` returns the error unchanged (the state update
made by the call persists either way), otherwise the achieved speed is
discarded and `Ok(())` is returned. -/
def defaultSetSpeedMax {S E : Type} (max_rpm : S → Nat)
    (set_speed_rpm : S → Nat → Except E Nat × S) (s : S) :
    Except E Unit × S :=
  match set_speed_rpm s (max_rpm s) with
  | (Except.ok _, s1) => (Except.ok (), s1)
  | (Except.error e, s1) => (Except.error e, s1)

/-- Default body of the blocking `Fan::stop`
(embedded-fans/src/lib.rs lines 171-176):
`self.set_speed_rpm(0)?; Ok(())`. -/
def defaultStop {S E : Type} (set_speed_rpm : S → Nat → Except E Nat × S)
    (s : S) : Except E Unit × S :=
  match set_speed_rpm s 0 with
  | (Except.ok _, s1) => (Except.ok (), s1)
  | (Except.error e, s1) => (Except.error e, s1)

/-- The condition of the `debug_assert!((0..=100).contains(&percent))` at the
head of both variants' `set_speed_percent` default bodies (`percent` is an
unsigned `u8`, so the lower bound is `0 ≤ percent`). -/
def percentAssertCond (percent : Nat) : Bool :=
  decide (0 ≤ percent) && decide (percent ≤ 100)

/-- The blocking `trait Fan` as the record of all its methods (required
methods `max_rpm`, `min_rpm`, `min_start_rpm`, `set_speed_rpm` and provided
methods `set_speed_percent`, `set_speed_max`, `stop`, in source order). -/
structure Fan (S E : Type) : Type where
  max_rpm : S → Nat
  min_rpm : S → Nat
  min_start_rpm : S → Nat
  set_speed_rpm : S → Nat → Except E Nat × S
  set_speed_percent : S → Nat → Except E Nat × S
  set_speed_max : S → Except E Unit × S
  stop : S → Except E Unit × S

/-- From `impl<T: Fan + ?Sized> Fan for &mut T` (embedded-fans/src/lib.rs
lines 179-214): every method, the derived ones included, forwards to the
corresponding method of the underlying `T`. -/
def Fan.refMut {S E : Type} (f : Fan S E) : Fan S E where
  max_rpm := fun s => f.max_rpm s
  min_rpm := fun s => f.min_rpm s
  min_start_rpm := fun s => f.min_start_rpm s
  set_speed_rpm := fun s rpm => f.set_speed_rpm s rpm
  set_speed_percent := fun s percent => f.set_speed_percent s percent
  set_speed_max := fun s => f.set_speed_max s
  stop := fun s => f.stop s

/-- The blocking `trait RpmSense`: single required method `rpm`. -/
structure RpmSense (S E : Type) : Type where
  rpm : S → Except E Nat × S

/-- From `impl<T: RpmSense + ?Sized> RpmSense for &mut T`: `rpm` forwards to
the underlying `T`. -/
def RpmSense.refMut {S E : Type} (g : RpmSense S E) : RpmSense S E where
  rpm := fun s => g.rpm s

/-- Instrumentation used to make device interactions observable: wraps a raw
`set_speed_rpm` so that the state also records the list of every rpm argument
the device has been commanded with, in order. -/
def logged {S E : Type} (set_speed_rpm : S → Nat → Except E Nat × S) :
    S × List Nat → Nat → Except E Nat × (S × List Nat) :=
  fun p rpm =>
    ((set_speed_rpm p.1 rpm).1, ((set_speed_rpm p.1 rpm).2, p.2 ++ [rpm]))

end EmbeddedFans

/- The crate `embedded-fans-async` re-exports `Error`, `ErrorKind` and
   `ErrorType` from `embedded-fans` (`pub use embedded_fans::{Error,
   ErrorKind, ErrorType};`), so the error model above is shared.  Its `Fan`
   and `RpmSense` traits have the same method signatures with `set_speed_rpm`,
   `set_speed_percent`, `set_speed_max`, `stop` and `rpm` marked `async`; in
   this embedding an awaited call is the same state-passing function call. -/

namespace EmbeddedFansAsync

/-- Default body of the async `Fan::set_speed_percent`
(embedded-fans-async/src/lib.rs lines 86-91):
`self.set_speed_rpm((self.max_rpm() * u16::from(percent)) / 100).await`.
Unlike the blocking variant, the multiplication is performed in `u16`
(release-mode semantics: the product wraps mod `2^16`; debug builds panic on
overflow), then divided by 100 in `u16`. -/
def defaultSetSpeedPercent {S E : Type} (max_rpm : S → Nat)
    (set_speed_rpm : S → Nat → Except E Nat × S) (s : S) (percent : Nat) :
    Except E Nat × S :=
  set_speed_rpm s ((max_rpm s * percent) % 65536 / 100)

/-- Default body of the async `Fan::set_speed_max`
(embedded-fans-async/src/lib.rs lines 93-98):
`self.set_speed_rpm(self.max_rpm()).await?; Ok(())`. -/
def defaultSetSpeedMax {S E : Type} (max_rpm : S → Nat)
    (set_speed_rpm : S → Nat → Except E Nat × S) (s : S) :
    Except E Unit × S :=
  match set_speed_rpm s (max_rpm s) with
  | (Except.ok _, s1) => (Except.ok (), s1)
  | (Except.error e, s1) => (Except.error e, s1)

/-- Default body of the async `Fan::stop`
(embedded-fans-async/src/lib.rs lines 100-105):
`self.set_speed_rpm(0).await?; Ok(())`. -/
def defaultStop {S E : Type} (set_speed_rpm : S → Nat → Except E Nat × S)
    (s : S) : Except E Unit × S :=
  match set_speed_rpm s 0 with
  | (Except.ok _, s1) => (Except.ok (), s1)
  | (Except.error e, s1) => (Except.error e, s1)

/-- The async `trait Fan` as the record of all its methods (source field
order: `set_speed_rpm` first). -/
structure Fan (S E : Type) : Type where
  set_speed_rpm : S → Nat → Except E Nat × S
  max_rpm : S → Nat
  min_rpm : S → Nat
  min_start_rpm : S → Nat
  set_speed_percent : S → Nat → Except E Nat × S
  set_speed_max : S → Except E Unit × S
  stop : S → Except E Unit × S

/-- From `impl<T: Fan + ?Sized> Fan for &mut T` (embedded-fans-async/src/lib.rs
lines 108-143): every method forwards to the underlying `T`. -/
def Fan.refMut {S E : Type} (f : Fan S E) : Fan S E where
  set_speed_rpm := fun s rpm => f.set_speed_rpm s rpm
  max_rpm := fun s => f.max_rpm s
  min_rpm := fun s => f.min_rpm s
  min_start_rpm := fun s => f.min_start_rpm s
  set_speed_percent := fun s percent => f.set_speed_percent s percent
  set_speed_max := fun s => f.set_speed_max s
  stop := fun s => f.stop s

/-- The async `trait RpmSense`: single required method `rpm`. -/
structure RpmSense (S E : Type) : Type where
  rpm : S → Except E Nat × S

/-- From `impl<T: RpmSense + ?Sized> RpmSense for &mut T`: forwards `rpm`. -/
def RpmSense.refMut {S E : Type} (g : RpmSense S E) : RpmSense S E where
  rpm := fun s => g.rpm s

end EmbeddedFansAsync

/-- C1: for every device state, every `max_rpm` value in `[0, 65535]` and
every `percent` in `[0, 100]`, the blocking `Fan::set_speed_percent` default
body passes to `set_speed_rpm` exactly `floor(max_rpm * percent / 100)`:
the widening to `u32` means the product never wraps mod `2^32` and the
quotient never wraps mod `2^16`, so in particular `max_rpm = 65535`,
`percent = 100` yields target `65535`. -/
theorem blocking_set_speed_percent_exact (S E : Type) (max_rpm : S → Nat)
    (set_speed_rpm : S → Nat → Except E Nat × S) (s : S) (percent : Nat)
    (hm : max_rpm s ≤ 65535) (hp : percent ≤ 100) :
    EmbeddedFans.defaultSetSpeedPercent max_rpm set_speed_rpm s percent
      = set_speed_rpm s (max_rpm s * percent / 100) := by
  unfold EmbeddedFans.defaultSetSpeedPercent
  have hab : max_rpm s * percent ≤ 6553500 := by
    calc max_rpm s * percent ≤ 65535 * 100 := Nat.mul_le_mul hm hp
    _ = 6553500 := by norm_num
  congr 1
  omega

/-- Witness for C1 at the extreme point `max_rpm = 65535`, `percent = 100`:
the target handed to `set_speed_rpm` is exactly `65535`. -/
theorem blocking_set_speed_percent_exact_witness :
    (65535 : Nat) ≤ 65535 ∧ (100 : Nat) ≤ 100 ∧
    (65535 * 100 / 100 : Nat) = 65535 ∧
    EmbeddedFans.defaultSetSpeedPercent (fun _ : Unit => 65535)
        (fun s rpm => ((Except.ok rpm : Except EmbeddedFans.ErrorKind Nat), s))
        () 100
      = (Except.ok 65535, ()) :=
  ⟨by decide, by decide, by norm_num,
    blocking_set_speed_percent_exact Unit EmbeddedFans.ErrorKind
      (fun _ => 65535) (fun s rpm => (Except.ok rpm, s)) () 100
      (by decide) (by decide)⟩

/-- C2 (evaluation at the failing input): for a device with `max_rpm = 3150`,
the async `Fan::set_speed_percent` default body at `percent = 35` multiplies
in `u16`, so `3150 * 35 = 110250` wraps mod `65536` to `44714` and the target
passed to `set_speed_rpm` is `447`, not `floor(3150 * 35 / 100) = 1102` as the
claim and the spec scenario require (a debug build panics on the overflow
instead). -/
theorem async_set_speed_percent_overflows_at_3150_35 :
    EmbeddedFansAsync.defaultSetSpeedPercent (fun _ : Unit => 3150)
        (fun s rpm => ((Except.ok rpm : Except EmbeddedFans.ErrorKind Nat), s))
        () 35
      = (Except.ok 447, ()) ∧ (447 : Nat) < 1102 := by
  constructor
  · rfl
  · norm_num

/-- C3 (evaluation at the failing input): for a device with `max_rpm = 3150`,
the async `Fan::set_speed_percent` default body at `percent = 100` computes
`3150 * 100 = 315000`, which wraps mod `65536` to `52856`, so the target
passed to `set_speed_rpm` is `528` — not `max_rpm() = 3150` as the claim
requires (a debug build panics on the overflow instead).  The blocking
variant and the async `percent = 0` case do satisfy the claim. -/
theorem async_set_speed_percent_100_is_not_max_rpm :
    EmbeddedFansAsync.defaultSetSpeedPercent (fun _ : Unit => 3150)
        (fun s rpm => ((Except.ok rpm : Except EmbeddedFans.ErrorKind Nat), s))
        () 100
      = (Except.ok 528, ()) ∧ (528 : Nat) < 3150 := by
  constructor
  · rfl
  · norm_num

/-- Helper: the `?`-operator shape shared by `set_speed_max` and `stop` is
`Except.map (fun _ => ())` on the result, keeping the state of the single
underlying call. -/
theorem question_mark_discards {S E : Type} (r : Except E Nat × S) :
    (match r with
      | (Except.ok _, s1) => ((Except.ok () : Except E Unit), s1)
      | (Except.error e, s1) => (Except.error e, s1))
      = (Except.map (fun _ => ()) r.1, r.2) := by
  rcases r with ⟨r1, s1⟩
  cases r1 <;> rfl

/-- C4: in both variants, over a device whose `set_speed_rpm` invocations are
logged, the `set_speed_max` default body issues exactly one `set_speed_rpm`
call with argument `max_rpm()` and nothing else, returning that call's result
with the achieved speed discarded (`Ok(())` on success, the error unchanged on
failure) and that call's device state; the `stop` default body does the same
with argument `0`. -/
theorem set_speed_max_and_stop_delegate (S E : Type) (max_rpm : S → Nat)
    (set_speed_rpm : S → Nat → Except E Nat × S) (s : S) (l : List Nat) :
    EmbeddedFans.defaultSetSpeedMax (fun p => max_rpm p.1)
        (EmbeddedFans.logged set_speed_rpm) (s, l)
      = (Except.map (fun _ => ()) (set_speed_rpm s (max_rpm s)).1,
          ((set_speed_rpm s (max_rpm s)).2, l ++ [max_rpm s])) ∧
    EmbeddedFans.defaultStop (EmbeddedFans.logged set_speed_rpm) (s, l)
      = (Except.map (fun _ => ()) (set_speed_rpm s 0).1,
          ((set_speed_rpm s 0).2, l ++ [0])) ∧
    EmbeddedFansAsync.defaultSetSpeedMax (fun p => max_rpm p.1)
        (EmbeddedFans.logged set_speed_rpm) (s, l)
      = (Except.map (fun _ => ()) (set_speed_rpm s (max_rpm s)).1,
          ((set_speed_rpm s (max_rpm s)).2, l ++ [max_rpm s])) ∧
    EmbeddedFansAsync.defaultStop (EmbeddedFans.logged set_speed_rpm) (s, l)
      = (Except.map (fun _ => ()) (set_speed_rpm s 0).1,
          ((set_speed_rpm s 0).2, l ++ [0])) := by
  refine ⟨?_, ?_, ?_, ?_⟩ <;>
    first
      | exact (question_mark_discards
          (EmbeddedFans.logged set_speed_rpm (s, l) (max_rpm s)))
      | exact (question_mark_discards
          (EmbeddedFans.logged set_speed_rpm (s, l) 0))

/-- C5: for both capabilities and both concurrency variants, the `&mut T`
delegation adapter gives, on every input, exactly the result (value, error
and successor device state alike) of calling the same operation directly on
the underlying implementation — the derived operations included, which are
forwarded rather than re-derived. -/
theorem refMut_is_transparent (S E : Type)
    (f : EmbeddedFans.Fan S E) (g : EmbeddedFans.RpmSense S E)
    (fa : EmbeddedFansAsync.Fan S E) (ga : EmbeddedFansAsync.RpmSense S E)
    (s : S) (rpm percent : Nat) :
    (f.refMut.max_rpm s = f.max_rpm s ∧
     f.refMut.min_rpm s = f.min_rpm s ∧
     f.refMut.min_start_rpm s = f.min_start_rpm s ∧
     f.refMut.set_speed_rpm s rpm = f.set_speed_rpm s rpm ∧
     f.refMut.set_speed_percent s percent = f.set_speed_percent s percent ∧
     f.refMut.set_speed_max s = f.set_speed_max s ∧
     f.refMut.stop s = f.stop s) ∧
    g.refMut.rpm s = g.rpm s ∧
    (fa.refMut.set_speed_rpm s rpm = fa.set_speed_rpm s rpm ∧
     fa.refMut.max_rpm s = fa.max_rpm s ∧
     fa.refMut.min_rpm s = fa.min_rpm s ∧
     fa.refMut.min_start_rpm s = fa.min_start_rpm s ∧
     fa.refMut.set_speed_percent s percent = fa.set_speed_percent s percent ∧
     fa.refMut.set_speed_max s = fa.set_speed_max s ∧
     fa.refMut.stop s = fa.stop s) ∧
    ga.refMut.rpm s = ga.rpm s :=
  ⟨⟨rfl, rfl, rfl, rfl, rfl, rfl, rfl⟩, rfl,
    ⟨rfl, rfl, rfl, rfl, rfl, rfl, rfl⟩, rfl⟩

/-- C6: the `&mut T` implementation of `ErrorType` binds the associated error
type to `T::Error` itself — for every error type `E`, the adapter's error
type is exactly `E`, never a new type. -/
theorem refMut_error_type_unchanged :
    ∀ E : Type, EmbeddedFans.refMutErrorType E = E :=
  fun _ => rfl

/-- C7: `core::convert::Infallible` is uninhabited, so its `kind()`
implementation (the empty match) is unreachable: no value exists on which it
could be invoked, and therefore any statement about `Infallible.kind` holds
vacuously for every value — here it is simultaneously equal to two distinct
classifications, which is only possible because no value exists. -/
theorem infallible_kind_unreachable :
    IsEmpty EmbeddedFans.Infallible ∧
    ∀ e : EmbeddedFans.Infallible,
      EmbeddedFans.Infallible.kind e = EmbeddedFans.ErrorKind.Peripheral ∧
      EmbeddedFans.Infallible.kind e = EmbeddedFans.ErrorKind.Other :=
  ⟨⟨fun e => nomatch e⟩, fun e => nomatch e⟩

/-- C8: the `Error` implementation for `ErrorKind` classifies every value as
itself (`kind` is the identity), and hence classification is pure and stable:
a second application yields the same result as the first. -/
theorem error_kind_classifies_as_itself :
    ∀ e : EmbeddedFans.ErrorKind,
      EmbeddedFans.ErrorKind.kind e = e ∧
      EmbeddedFans.ErrorKind.kind (EmbeddedFans.ErrorKind.kind e)
        = EmbeddedFans.ErrorKind.kind e :=
  fun _ => ⟨rfl, rfl⟩

/-- C9: the percent-range precondition is enforced only by the debug-build
assertion, whose condition holds exactly on `[0, 100]`; and in both variants,
for every `percent` — in range or not — the default body unconditionally
proceeds with the arithmetic and delegates to `set_speed_rpm`: no recoverable
error is ever produced for an out-of-range percent. -/
theorem set_speed_percent_assert_only (percent : Nat) :
    (EmbeddedFans.percentAssertCond percent = true ↔ percent ≤ 100) ∧
    ∀ (S E : Type) (max_rpm : S → Nat)
      (set_speed_rpm : S → Nat → Except E Nat × S) (s : S),
      EmbeddedFans.defaultSetSpeedPercent max_rpm set_speed_rpm s percent
        = set_speed_rpm s ((max_rpm s * percent) % 4294967296 / 100 % 65536) ∧
      EmbeddedFansAsync.defaultSetSpeedPercent max_rpm set_speed_rpm s percent
        = set_speed_rpm s ((max_rpm s * percent) % 65536 / 100) := by
  constructor
  · simp [EmbeddedFans.percentAssertCond]
  · intro S E max_rpm set_speed_rpm s
    exact ⟨rfl, rfl⟩

/-- C10: in both variants, whenever the single underlying `set_speed_rpm`
call made by a derived operation returns an error, that derived operation
(`set_speed_percent`, `set_speed_max`, `stop`) returns exactly that error
value and exactly the device state left by the failed call — nothing is
transformed, reclassified, swallowed or retried, and no further device
interaction happens after the failure. -/
theorem derived_operations_propagate_errors (S E : Type) (max_rpm : S → Nat)
    (set_speed_rpm : S → Nat → Except E Nat × S) (s : S) (percent : Nat)
    (e : E) (s1 s2 s3 s4 : S)
    (hp : set_speed_rpm s ((max_rpm s * percent) % 4294967296 / 100 % 65536)
            = (Except.error e, s1))
    (hq : set_speed_rpm s ((max_rpm s * percent) % 65536 / 100)
            = (Except.error e, s2))
    (hm : set_speed_rpm s (max_rpm s) = (Except.error e, s3))
    (hz : set_speed_rpm s 0 = (Except.error e, s4)) :
    EmbeddedFans.defaultSetSpeedPercent max_rpm set_speed_rpm s percent
      = (Except.error e, s1) ∧
    EmbeddedFansAsync.defaultSetSpeedPercent max_rpm set_speed_rpm s percent
      = (Except.error e, s2) ∧
    EmbeddedFans.defaultSetSpeedMax max_rpm set_speed_rpm s
      = (Except.error e, s3) ∧
    EmbeddedFansAsync.defaultSetSpeedMax max_rpm set_speed_rpm s
      = (Except.error e, s3) ∧
    EmbeddedFans.defaultStop set_speed_rpm s = (Except.error e, s4) ∧
    EmbeddedFansAsync.defaultStop set_speed_rpm s = (Except.error e, s4) := by
  refine ⟨hp, hq, ?_, ?_, ?_, ?_⟩
  · unfold EmbeddedFans.defaultSetSpeedMax
    rw [hm]
  · unfold EmbeddedFansAsync.defaultSetSpeedMax
    rw [hm]
  · unfold EmbeddedFans.defaultStop
    rw [hz]
  · unfold EmbeddedFansAsync.defaultStop
    rw [hz]

/-- Witness for C10 on a concrete always-failing device (`max_rpm = 3150`,
every `set_speed_rpm` call fails with `Peripheral`): each derived operation,
at `percent = 50`, surfaces exactly that error. -/
theorem derived_operations_propagate_errors_witness :
    EmbeddedFans.defaultSetSpeedPercent (fun _ : Unit => 3150)
        (fun s _ =>
          ((Except.error EmbeddedFans.ErrorKind.Peripheral
              : Except EmbeddedFans.ErrorKind Nat), s)) () 50
      = (Except.error EmbeddedFans.ErrorKind.Peripheral, ()) ∧
    EmbeddedFansAsync.defaultSetSpeedPercent (fun _ : Unit => 3150)
        (fun s _ =>
          ((Except.error EmbeddedFans.ErrorKind.Peripheral
              : Except EmbeddedFans.ErrorKind Nat), s)) () 50
      = (Except.error EmbeddedFans.ErrorKind.Peripheral, ()) ∧
    EmbeddedFans.defaultSetSpeedMax (fun _ : Unit => 3150)
        (fun s _ =>
          ((Except.error EmbeddedFans.ErrorKind.Peripheral
              : Except EmbeddedFans.ErrorKind Nat), s)) ()
      = (Except.error EmbeddedFans.ErrorKind.Peripheral, ()) ∧
    EmbeddedFansAsync.defaultSetSpeedMax (fun _ : Unit => 3150)
        (fun s _ =>
          ((Except.error EmbeddedFans.ErrorKind.Peripheral
              : Except EmbeddedFans.ErrorKind Nat), s)) ()
      = (Except.error EmbeddedFans.ErrorKind.Peripheral, ()) ∧
    EmbeddedFans.defaultStop
        (fun (s : Unit) (_ : Nat) =>
          ((Except.error EmbeddedFans.ErrorKind.Peripheral
              : Except EmbeddedFans.ErrorKind Nat), s)) ()
      = (Except.error EmbeddedFans.ErrorKind.Peripheral, ()) ∧
    EmbeddedFansAsync.defaultStop
        (fun (s : Unit) (_ : Nat) =>
          ((Except.error EmbeddedFans.ErrorKind.Peripheral
              : Except EmbeddedFans.ErrorKind Nat), s)) ()
      = (Except.error EmbeddedFans.ErrorKind.Peripheral, ()) :=
  derived_operations_propagate_errors Unit EmbeddedFans.ErrorKind
    (fun _ => 3150)
    (fun s _ => (Except.error EmbeddedFans.ErrorKind.Peripheral, s))
    () 50 EmbeddedFans.ErrorKind.Peripheral () () () ()
    rfl rfl rfl rfl
